import Mathlib

/-!
Verification of the acidnade relay-server variants.

The repository is a collection of near-duplicate Express services.  Each
variant reads a JSON request, optionally calls an external text-generation
API, parses the generated text as JSON, coerces the result into a plan of
create/modify/delete steps, applies policy rules (deletion thresholds,
UI-class filtering, path forcing) and answers with a JSON body.

The embedding below is a shallow functional model of the request handlers.
External effects are turned into explicit parameters:

* the generation call is represented by flags describing whether it threw,
  and the generated text is consumed only through `JSON.parse`, which is
  represented by an oracle argument of type `Option AiData` (the typed
  result of a successful parse of the cleaned response text; `none` is a
  parse failure);
* a successful parse is modelled as a JSON object with the fields the
  handlers read, each field optional (absent field = `undefined`);
* `Date.now()` is a `Nat` parameter;
* the in-process `sessionData` Map is threaded as an association list from
  optional string keys (JS `Map` accepts `undefined` as a key, which some
  call sites pass) to session records;
* an exception thrown in the remaining body of a handler is modelled by a
  `crash` flag routed to the top-level catch handler of the variant.
-/

namespace Acid

/-! ### String helpers mirroring the JavaScript primitives used -/

/-- Whitespace recognised by the model of `String.prototype.trim`. -/
def isJsSpace (c : Char) : Bool :=
  c == ' ' || c == '\t' || c == '\n' || c == '\r' || c == '\x0b' || c == '\x0c'

/-- Model of `s.trim()`. -/
def trimS (s : String) : String :=
  String.mk (((s.data.dropWhile isJsSpace).reverse.dropWhile isJsSpace).reverse)

/-- Model of `s.toLowerCase()` (ASCII case mapping suffices for the
keyword tests performed by the handlers). -/
def lowerS (s : String) : String :=
  String.mk (s.data.map Char.toLower)

/-- `beginsWith needle hay` is true when `needle` is an initial segment of
`hay`. -/
def beginsWith : List Char → List Char → Bool
  | [], _ => true
  | _ :: _, [] => false
  | a :: as, b :: bs => a == b && beginsWith as bs

/-- `subOccurs needle hay` is true when `needle` occurs contiguously in
`hay`. -/
def subOccurs (needle : List Char) : List Char → Bool
  | [] => needle.isEmpty
  | c :: cs => beginsWith needle (c :: cs) || subOccurs needle cs

/-- Model of `hay.includes(needle)`. -/
def hasSubstr (hay needle : String) : Bool :=
  subOccurs needle.data hay.data

/-- Model of `hay.startsWith(needle)`. -/
def startsWithS (hay needle : String) : Bool :=
  beginsWith needle.data hay.data

/-- Replace the first occurrence of `pat` in `hay`, as JavaScript
`hay.replace(pat, rep)` does for string patterns.  (`pat` is nonempty at
every call site.) -/
def replFirst (pat rep : List Char) : List Char → List Char
  | [] => []
  | c :: cs =>
    if beginsWith pat (c :: cs) then rep ++ (c :: cs).drop pat.length
    else c :: replFirst pat rep cs

/-- String version of `replFirst`. -/
def replaceFirstS (pat rep s : String) : String :=
  String.mk (replFirst pat.data rep.data s.data)

/-- JavaScript truthiness of an optional string (`undefined` and `""` are
falsy). -/
def truthyS : Option String → Bool
  | none => false
  | some s => !(s == "")

/-- Model of `a || b` for an optional string `a` and a string default `b`. -/
def jsOrStr (a : Option String) (b : String) : String :=
  match a with
  | some s => if s == "" then b else s
  | none => b

/-- JS template-literal stringification of a possibly-undefined string. -/
def jsShow (a : Option String) : String :=
  match a with
  | some s => s
  | none => "undefined"

/-! ### Data model -/

/-- A plan step as read from (or written into) the JSON plan array.  Every
field is optional, mirroring property access on a JSON object: `none` is
an absent property.  The fields are the ones the handlers read or write. -/
structure Step where
  step : Option Nat := none
  description : Option String := none
  prompt : Option String := none
  type : Option String := none
  className : Option String := none
  name : Option String := none
  parentPath : Option String := none
  properties : Option (List (String × String)) := none
  reasoning : Option String := none
  requiresConfirmation : Option Bool := none
  timeout : Option Nat := none
  deriving DecidableEq, Repr

/-- The JSON object manipulated by the `/ai` handlers: the result of a
successful `JSON.parse` of the generated text, and also the response body
that `res.json(data)` serialises.  Fields the variants read or write. -/
structure AiData where
  thinking : Option String := none
  message : Option String := none
  plan : Option (List Step) := none
  autoExecute : Option Bool := none
  needsApproval : Option Bool := none
  stepsTotal : Option Nat := none
  progressText : Option String := none
  sequentialExecution : Option Bool := none
  canUndo : Option Bool := none
  deriving DecidableEq, Repr

/-- An HTTP response: a JSON body with a status, or an error-object body
(`res.status(s).json(\x7b error: e \x7d)`). -/
inductive HttpResp where
  | json (status : Nat) (body : AiData)
  | errJson (status : Nat) (error : String)
  deriving DecidableEq, Repr

def HttpResp.statusOf : HttpResp → Nat
  | .json s _ => s
  | .errJson s _ => s

def HttpResp.messageOf : HttpResp → Option String
  | .json _ b => b.message
  | .errJson _ _ => none

def HttpResp.planOf : HttpResp → Option (List Step)
  | .json _ b => b.plan
  | .errJson _ _ => none

def HttpResp.approvalOf : HttpResp → Option Bool
  | .json _ b => b.needsApproval
  | .errJson _ _ => none

def HttpResp.autoExecOf : HttpResp → Option Bool
  | .json _ b => b.autoExecute
  | .errJson _ _ => none

def HttpResp.errorOf : HttpResp → Option String
  | .json _ _ => none
  | .errJson _ e => some e

def HttpResp.canUndoOf : HttpResp → Option Bool
  | .json _ b => b.canUndo
  | .errJson _ _ => none

/-- The guard `!prompt || prompt.trim() === ''` shared by the variants
that short-circuit an empty prompt. -/
def promptEmpty : Option String → Bool
  | none => true
  | some s => s == "" || trimS s == ""

/-- `data.plan` emptiness test `!data.plan || data.plan.length === 0`. -/
def planEmptyOpt : Option (List Step) → Bool
  | none => true
  | some l => l.isEmpty

/-- Membership of an optional class name in a class list, as
`list.includes(step.className)` (an absent className is never a member). -/
def classIn (cs : List String) (c : Option String) : Bool :=
  match c with
  | some s => cs.contains s
  | none => false

/-- The number of delete steps,
`plan.filter(step => step.type === 'delete').length`. -/
def delCount (steps : List Step) : Nat :=
  (steps.filter (fun st => st.type == some "delete")).length

/-! ### v14 variant (server.js, first file): POST /ai -/

/-- The nine UI instance classes rejected by the v14 filter.  The v15
variant uses the identical list. -/
def uiInstanceClasses9 : List String :=
  ["ScreenGui", "Frame", "TextLabel", "TextButton",
   "ImageLabel", "ImageButton", "ScrollingFrame",
   "TextBox", "ViewportFrame"]

/-- The v14 mass-deletion warning message with the interpolated count. -/
def delWarn (n : Nat) : String :=
  "⚠️ This will delete " ++ toString n ++ " items. Review and approve."

/-- The v14 UI-violation replacement message. -/
def uiViolationMsg_v14 : String :=
  "⚠️ UI creation violation detected. UI must be created inside LocalScript. Please rephrase your request or I\x27ll create a LocalScript that generates the UI."

/-- `if (!data.message) data.message = "I'll handle that!"` (v14). -/
def ensureMsg_v14 (d : AiData) : AiData :=
  if truthyS d.message then d else { d with message := some "I\x27ll handle that!" }

/-- The v14 plan-validation block, entered when `data.plan` is an array:
step totals, the deletion gate at threshold 5, and the UI-class filter
with its override of the message and flags. -/
def processPlan_v14 (d : AiData) (steps : List Step) : AiData :=
  let d1 := { d with
    stepsTotal := some steps.length,
    progressText := some ("Executing " ++ toString steps.length ++ " step"
      ++ (if 1 < steps.length then "s" else "")),
    sequentialExecution := some true }
  let d2 := match d1.autoExecute with
    | none => { d1 with autoExecute := some true }
    | some _ => d1
  let d3 := if 5 ≤ delCount steps then
      { d2 with needsApproval := some true, autoExecute := some false,
                message := some (delWarn (delCount steps)) }
    else { d2 with needsApproval := some false }
  let kept := steps.filter (fun st => !(classIn uiInstanceClasses9 st.className))
  let hasViolation := steps.any (fun st => classIn uiInstanceClasses9 st.className)
  let d4 := { d3 with plan := some kept }
  let d5 := if hasViolation then
      { d4 with message := some uiViolationMsg_v14,
                needsApproval := some true, autoExecute := some false }
    else d4
  { d5 with stepsTotal := some kept.length }

/-- The tail of the v14 handler after a successful (or fallback-handled)
parse: ensure the message, then run the plan-validation block when
`data.plan` is an array, and serialise the result. -/
def mainResp_v14 (d0 : AiData) : HttpResp :=
  match (ensureMsg_v14 d0).plan with
  | none => .json 200 (ensureMsg_v14 d0)
  | some steps => .json 200 (processPlan_v14 (ensureMsg_v14 d0) steps)

/-- The v14 POST /ai handler.  Parameters: the request prompt; whether
`model.generateContent` threw; whether the remaining body threw (routed to
the top-level catch); the parse oracle; and the `<thinking>` extraction
performed in the parse-failure branch.  Returns the response together with
a flag recording whether the generation client was invoked. -/
def postAi_v14 (prompt : Option String) (apiThrow crash : Bool)
    (parsed : Option AiData) (thinkingX : Option String) : HttpResp × Bool :=
  if promptEmpty prompt then
    (.json 200 { message := some "What do you need?", plan := some [],
                 autoExecute := some true }, false)
  else if apiThrow then
    (.json 200 { message := some "I\x27ll help you with that!", plan := some [],
                 autoExecute := some true }, true)
  else if crash then
    (.json 200 { message := some "I\x27m ready to help! What do you need?",
                 plan := some [], autoExecute := some true }, true)
  else
    (mainResp_v14 (match parsed with
      | some d => d
      | none =>
        { thinking := thinkingX,
          message := some "I understand what you need. Let me create that for you!",
          plan := some [], autoExecute := some true }), true)

/-! ### v9.1 variant (server.js, third file): POST /ai

This variant has no empty-prompt guard and no inner try around the
generation call: an upstream failure (or any later exception) reaches the
top-level catch, which answers `res.status(500).json(\x7b error: error.message \x7d)`.
The `upstream` argument is the outcome of
`model.generateContent(...)` followed by `result.response.text().trim()`
plus fence cleaning: `Except.error e` is a thrown error with message `e`,
`Except.ok t` is the cleaned response text. -/

/-- The v9.1 POST /ai handler.  The second component records that the
generation client was invoked (it always is: there is no guard). -/
def postAi_v91 (prompt : Option String) (upstream : Except String String)
    (parsed : Option AiData) : HttpResp × Bool :=
  match upstream with
  | .error e => (.errJson 500 e, true)
  | .ok t =>
    let d0 : AiData := match parsed with
      | some d => d
      | none => { message := some t }
    let d1 := if !(truthyS d0.message) && d0.plan.isNone then
        { d0 with message := some "Done." }
      else d0
    (.json 200 d1, true)

/-! ### Session store (v17.0 / v17.1 / v18 variants)

`const sessionData = new Map()` holds per-session records.  Only lookup
and update are ever observable, so `Map.set` is modelled as a shadowing
association-list update.  Keys are `Option String` because some call
sites pass a possibly-undefined `sessionId` directly as the key.  The v18
fresh session additionally initialises a `lastIdeas: null` field; no
operation embedded here reads it, so it is omitted from the record. -/

/-- The `lastPlan` record stored by the v18 plan mode:
`\x7b originalIdea, plan, timestamp \x7d`. -/
structure PlanRec where
  originalIdea : String
  plan : Option (List Step)
  timestamp : Nat
  deriving DecidableEq, Repr

/-- One creation-log entry pushed by `addToCreationLog`:
`\x7b timestamp, plan: planData, type: 'creation' \x7d`. -/
structure LogEntry where
  timestamp : Nat
  plan : AiData
  type : String
  deriving DecidableEq, Repr

/-- A session record (union of the fields initialised by the v17.x and
v18 `getSession`). -/
structure Session where
  history : List String := []
  creationLog : List LogEntry := []
  canUndo : Bool := false
  lastPlan : Option PlanRec := none
  deriving DecidableEq, Repr

def freshSession : Session := {}

/-- The in-process session map. -/
def SessionMap : Type := List (Option String × Session)

/-- `sessionData.get(k)` (first matching entry wins; `mapSet` shadows). -/
def mapGet (m : SessionMap) (k : Option String) : Option Session :=
  match (List.find? (fun e => e.1 == k) m) with
  | some e => some e.2
  | none => none

/-- `sessionData.set(k, v)`: only `mapGet` observes the map, so update is
modelled by consing a shadowing entry. -/
def mapSet (m : SessionMap) (k : Option String) (v : Session) : SessionMap :=
  (k, v) :: m

/-- `getSession(k)`: create a fresh session on first reference, then
return the stored record (v17.0, v17.1 and v18 all define it this way). -/
def getSession (k : Option String) (m : SessionMap) : Session × SessionMap :=
  match mapGet m k with
  | some s => (s, m)
  | none => (freshSession, mapSet m k freshSession)

/-- The creation-log entry pushed by `addToCreationLog`. -/
def logEntryOf (now : Nat) (planData : AiData) : LogEntry :=
  { timestamp := now, plan := planData, type := "creation" }

/-- The 10-entry cap: `if (creationLog.length > 10) creationLog.shift()`. -/
def capLog (l : List LogEntry) : List LogEntry :=
  if 10 < l.length then l.drop 1 else l

/-- `addToCreationLog(sessionId, planData)` (identical in v17.0 and
v17.1): push an entry, set `canUndo`, and drop the oldest entry once the
log exceeds 10. -/
def addToCreationLog (now : Nat) (sessionId : Option String) (planData : AiData)
    (m : SessionMap) : SessionMap :=
  let sm := getSession sessionId m
  mapSet sm.2 sessionId
    { sm.1 with creationLog := capLog (sm.1.creationLog ++ [logEntryOf now planData]),
                canUndo := true }

/-- The session key used by the v17.0, v17.1 and v18 /ai handlers:
`sessionId || 'default'`. -/
def sessionKey_v18 (sessionId : Option String) : String :=
  jsOrStr sessionId "default"

/-- The v18 plan-mode session write:
`const session = getSession(sessionId || 'default')` followed by
`session.lastPlan = \x7b originalIdea, plan, timestamp \x7d` (a mutation of the
stored record, i.e. a map update at the same key). -/
def storeLastPlan_v18 (sessionId : Option String) (originalIdea : String)
    (plan : Option (List Step)) (now : Nat) (m : SessionMap) : SessionMap :=
  let k : Option String := some (sessionKey_v18 sessionId)
  let sm := getSession k m
  mapSet sm.2 k { sm.1 with lastPlan := some { originalIdea := originalIdea, plan := plan, timestamp := now } }

/-! ### v17.1 variant (part_003): POST /undo and POST /ai -/

/-- The inverse step built by the /undo loop of v17.0/v17.1 for one logged
step; `k` is `undoPlan.length` at push time, so `step` is `k + 1`.
`Delete $\x7bstep.name\x7d` stringifies an absent name as "undefined". -/
def undoStepOf (k : Nat) (st : Step) : Step :=
  { step := some (k + 1),
    description := some ("Delete " ++ jsShow st.name ++ " (undoing)"),
    type := some "delete",
    className := st.className,
    name := st.name,
    parentPath := st.parentPath,
    reasoning := some "Reverting previous creation" }

/-- The /undo loop `for (const step of lastAction.plan.plan)`. -/
def buildUndo (k : Nat) : List Step → List Step
  | [] => []
  | st :: rest => undoStepOf k st :: buildUndo (k + 1) rest

/-- The v17.1 POST /undo handler (textually identical in v17.0).  The
`length === 0` check is represented by matching on `getLast?`; `pop()`
removes the last entry; if the logged object has no plan array the
`for...of` throws and the top-level catch answers with the undo-error
message (the pop having already happened). -/
def undo_v171 (sessionId : Option String) (m : SessionMap) : HttpResp × SessionMap :=
  if !(truthyS sessionId) then
    (.json 200 { message := some "No session ID", canUndo := some false }, m)
  else
    let sm := getSession sessionId m
    match sm.1.creationLog.getLast? with
    | none =>
      (.json 200 { message := some "Nothing to undo", canUndo := some false }, sm.2)
    | some lastAction =>
      let rest := sm.1.creationLog.dropLast
      match lastAction.plan.plan with
      | none =>
        (.json 200 { message := some "Error processing undo", canUndo := some false },
         mapSet sm.2 sessionId { sm.1 with creationLog := rest })
      | some steps =>
        let canU := !rest.isEmpty
        (.json 200 { message := some ("Undoing last action (" ++ toString steps.length ++ " items)"),
                     plan := some (buildUndo 0 steps),
                     autoExecute := some false,
                     needsApproval := some true,
                     canUndo := some canU },
         mapSet sm.2 sessionId { sm.1 with creationLog := rest, canUndo := canU })

/-- The six UI classes removed by the v17.1 filter (note: no TextBox,
ImageButton or ViewportFrame). -/
def uiClasses6_v171 : List String :=
  ["ScreenGui", "Frame", "TextLabel", "TextButton", "ImageLabel", "ScrollingFrame"]

/-- The v17.1 plan-processing block.  In the source
`addToCreationLog(sessionId, data)` runs first and stores a reference to
`data`, which the block keeps mutating; the stored entry therefore holds
the final data object, which is how it is reproduced here (the push is
performed at the end with the final value).  `data.canUndo` reads
`session.canUndo` after the push: when the raw `sessionId` equals the
`sessionId || 'default'` key the pushed entry is the same session object
and `canUndo` was just set to `true`; otherwise the earlier session entry
is unchanged. -/
def processPlan_v171 (now : Nat) (sessionId key : Option String) (m1 : SessionMap)
    (d : AiData) (steps : List Step) : AiData × SessionMap :=
  let d2 := { d with stepsTotal := some steps.length,
                     autoExecute := some (d.autoExecute.getD true) }
  let d3 := if 5 ≤ delCount steps then
      { d2 with needsApproval := some true, autoExecute := some false }
    else d2
  let kept := steps.filter (fun st => !(classIn uiClasses6_v171 st.className))
  let d4 := { d3 with plan := some kept }
  if 0 < steps.length then
    let sessAfter := if sessionId == key then true else ((getSession key m1).1).canUndo
    let dF := { d4 with canUndo := some (sessAfter || !kept.isEmpty) }
    (dF, addToCreationLog now sessionId dF m1)
  else
    let dF := { d4 with canUndo := some (((getSession key m1).1).canUndo || !kept.isEmpty) }
    (dF, m1)

/-- The v17.1 `wantsOnlyIdeas` intent test over the lowercased trimmed
prompt. -/
def wantsOnlyIdeas_v171 (userRequest : String) : Bool :=
  (hasSubstr userRequest "give me ideas" || hasSubstr userRequest "suggest"
    || hasSubstr userRequest "what could i" || hasSubstr userRequest "ideas for")
  && !(hasSubstr userRequest "create") && !(hasSubstr userRequest "make")
  && !(hasSubstr userRequest "fix") && !(hasSubstr userRequest "modify")

/-- The v17.1 `isPureQuestion` intent test. -/
def isPureQuestion_v171 (userRequest : String) : Bool :=
  (startsWithS userRequest "what is" || startsWithS userRequest "how does"
    || startsWithS userRequest "explain")
  && !(hasSubstr userRequest "create") && !(hasSubstr userRequest "make")

/-- The v17.1 rewrite applied when execution was expected but the plan is
empty or absent. -/
def noPlanRewrite_v171 (userRequest : String) (d0 : AiData) : AiData :=
  if !(wantsOnlyIdeas_v171 userRequest || isPureQuestion_v171 userRequest)
      && planEmptyOpt d0.plan then
    { d0 with message := some "⚠️ I couldn\x27t generate a plan. If you want to modify a script, make sure it is Selected in Studio." }
  else d0

/-- The v17.1 POST /ai handler.  `apiThrow` and `textThrow` are the two
inner try/catch outcomes; `crash` routes to the top-level catch. -/
def postAi_v171 (now : Nat) (prompt sessionId : Option String) (m : SessionMap)
    (apiThrow textThrow crash : Bool) (parsed : Option AiData) : HttpResp × SessionMap :=
  if promptEmpty prompt then
    (.json 200 { message := some "What do you want me to create?", plan := some [],
                 autoExecute := some true }, m)
  else
    let key : Option String := some (jsOrStr sessionId "default")
    let m1 := (getSession key m).2
    if apiThrow then
      (.json 200 { message := some "Error connecting to AI. Try again.", plan := some [],
                   autoExecute := some true }, m1)
    else if textThrow then
      (.json 200 { message := some "Error processing response.", plan := some [],
                   autoExecute := some true }, m1)
    else if crash then
      (.json 200 { message := some "Error occurred. Try again.", plan := some [],
                   autoExecute := some false }, m1)
    else
      let d0 : AiData := match parsed with
        | some d => d
        | none =>
          { thinking := some "Failed to parse",
            message := some "I tried to create code but the format failed. Try again.",
            plan := some [], autoExecute := some false }
      let d1 := noPlanRewrite_v171 (lowerS (trimS (prompt.getD ""))) d0
      match d1.plan with
      | none => (.json 200 d1, m1)
      | some steps =>
        let pr := processPlan_v171 now sessionId key m1 d1 steps
        (.json 200 pr.1, pr.2)

/-! ### v15 variant (part_004, second file): POST /ai -/

/-- The v15 UI-violation replacement message. -/
def uiViolationMsg_v15 : String :=
  "⚠️ UI must be created inside LocalScript. Correcting..."

/-- `if (!data.message) data.message = "Done!"` (v15). -/
def ensureMsg_v15 (d : AiData) : AiData :=
  if truthyS d.message then d else { d with message := some "Done!" }

/-- The v15 detection of an "ideas mode" answer in the parsed message and
its forced-execution rewrite (only when the user did not ask for ideas and
the plan is empty). -/
def ideasGate_v15 (userRequest : String) (d : AiData) : AiData :=
  let lm := lowerS (d.message.getD "")
  let detected := truthyS d.message &&
    (hasSubstr lm "here are some ideas" || hasSubstr lm "you could implement"
      || hasSubstr lm "if you\x27d like me to")
  if detected then
    let lr := lowerS userRequest
    let userWantsIdeas := hasSubstr lr "ideas" || hasSubstr lr "suggest"
      || hasSubstr lr "what could" || hasSubstr lr "what should"
    if !userWantsIdeas && planEmptyOpt d.plan then
      { d with message := some "⚠️ I detected you want me to DO something, not just suggest. Let me execute that for you.",
               needsApproval := some true, autoExecute := some false }
    else d
  else d

/-- The v15 plan-validation block: identical to the v14 one except for the
UI-violation message. -/
def processPlan_v15 (d : AiData) (steps : List Step) : AiData :=
  let d1 := { d with
    stepsTotal := some steps.length,
    progressText := some ("Executing " ++ toString steps.length ++ " step"
      ++ (if 1 < steps.length then "s" else "")),
    sequentialExecution := some true }
  let d2 := match d1.autoExecute with
    | none => { d1 with autoExecute := some true }
    | some _ => d1
  let d3 := if 5 ≤ delCount steps then
      { d2 with needsApproval := some true, autoExecute := some false,
                message := some (delWarn (delCount steps)) }
    else { d2 with needsApproval := some false }
  let kept := steps.filter (fun st => !(classIn uiInstanceClasses9 st.className))
  let hasUIViolation := steps.any (fun st => classIn uiInstanceClasses9 st.className)
  let d4 := { d3 with plan := some kept }
  let d5 := if hasUIViolation then
      { d4 with message := some uiViolationMsg_v15,
                needsApproval := some true, autoExecute := some false }
    else d4
  { d5 with stepsTotal := some kept.length }

/-- The v15 POST /ai handler.  `raw` is the cleaned response text, used by
the parse-failure branch to detect an ideas-style non-JSON answer. -/
def postAi_v15 (prompt : Option String) (apiThrow textThrow crash : Bool)
    (raw : String) (parsed : Option AiData) (thinkingX : Option String) : HttpResp :=
  if promptEmpty prompt then
    .json 200 { message := some "What do you need me to create or modify?",
                plan := some [], autoExecute := some true }
  else if apiThrow then
    .json 200 { message := some "Error processing request. Please try again.",
                plan := some [], autoExecute := some true }
  else if textThrow then
    .json 200 { message := some "Error extracting response.",
                plan := some [], autoExecute := some true }
  else if crash then
    .json 200 { message := some "Error occurred. Please try again.",
                plan := some [], autoExecute := some false }
  else
    let userRequest := trimS (prompt.getD "")
    let d0 : AiData := match parsed with
      | some d => d
      | none =>
        let low := lowerS raw
        let isIdeas := hasSubstr low "here are some ideas"
          || hasSubstr low "you could implement" || hasSubstr low "if you\x27d like"
        if isIdeas then
          { thinking := some (jsOrStr thinkingX "Forcing execution"),
            message := some "⚠️ I should execute, not suggest. Please rephrase your request or I\x27ll need clearer instructions.",
            plan := some [], autoExecute := some false, needsApproval := some true }
        else
          { thinking := thinkingX, message := some "I\x27ll create that for you!",
            plan := some [], autoExecute := some true }
    let d1 := ideasGate_v15 userRequest d0
    let d2 := ensureMsg_v15 d1
    match d2.plan with
    | none => .json 200 d2
    | some steps => .json 200 (processPlan_v15 d2 steps)

/-! ### v10.4 variant (part_001): per-step plan enforcement -/

/-- The eleven class names blocked by the v10.4 rewrite (note: no
ImageButton and no ViewportFrame). -/
def uiClasses11_v104 : List String :=
  ["ScreenGui", "Frame", "TextLabel", "TextButton", "ImageLabel",
   "ScrollingFrame", "TextBox", "UIListLayout", "UIPadding", "UICorner", "UIStroke"]

/-- Properties lookup `props.Source`. -/
def propGet (ps : List (String × String)) (k : String) : Option String :=
  match (List.find? (fun e => e.1 == k) ps) with
  | some e => some e.2
  | none => none

/-- Properties update `props.Source = v`. -/
def propSet (ps : List (String × String)) (k v : String) : List (String × String) :=
  if (List.find? (fun e => e.1 == k) ps).isSome then
    ps.map (fun e => if e.1 == k then (k, v) else e)
  else ps ++ [(k, v)]

/-- The boilerplate Source written by the v10.4 UI rewrite; `cname` and
`nm` are the already-mutated className and name (the source mutates the
step object before building this template literal). -/
def uiSourceNote_v104 (cname nm origSrc : String) : String :=
  "-- This LocalScript creates UI elements dynamically\nlocal Players = game:GetService(\"Players\")\nlocal player = Players.LocalPlayer\nlocal playerGui = player:WaitForChild(\"PlayerGui\")\n\n-- Create UI elements here\n-- Original plan was to create: "
    ++ cname ++ " \"" ++ nm ++ "\"\n-- " ++ origSrc

/-- The field defaults applied at the top of each v10.4 forEach
iteration: `type`, `requiresConfirmation` and `timeout` when falsy. -/
def stepDefaults_v104 (s : Step) : Step :=
  { s with
    type := if truthyS s.type then s.type else some "create",
    requiresConfirmation := if s.requiresConfirmation.getD false then s.requiresConfirmation else some false,
    timeout := if 0 < s.timeout.getD 0 then s.timeout else some 5 }

/-- The v10.4 UI-class rewrite: a step whose className is in the blocked
list becomes a LocalScript in StarterPlayerScripts, its name is rewritten
(`Gui`/`Frame`/`Label`/`Button` → `Client`, first occurrence each), its
description is prefixed, and a truthy `properties.Source` is replaced by
the boilerplate note.  `.error ()` marks the TypeError the JavaScript
throws when `.replace` is called on an absent name; the exception aborts
the whole request. -/
def uiRewrite_v104 (sA : Step) : Except Unit Step :=
  if classIn uiClasses11_v104 sA.className then
    match sA.name with
    | none => .error ()
    | some nm =>
      let nm4 := replaceFirstS "Button" "Client"
        (replaceFirstS "Label" "Client"
          (replaceFirstS "Frame" "Client" (replaceFirstS "Gui" "Client" nm)))
      let desc := "Create UI elements programmatically: " ++ jsShow sA.description
      let props : Option (List (String × String)) :=
        match sA.properties with
        | none => none
        | some ps =>
          match propGet ps "Source" with
          | some src =>
            if src == "" then some ps
            else some (propSet ps "Source" (uiSourceNote_v104 "LocalScript" nm4 src))
          | none => some ps
      .ok { sA with className := some "LocalScript", name := some nm4,
                    parentPath := some "game.StarterPlayer.StarterPlayerScripts",
                    description := some desc, properties := props }
  else .ok sA

/-- The v10.4 LocalScript forcing: any step whose className is
"LocalScript" but whose parentPath does not contain "StarterPlayer" is
re-parented to StarterPlayerScripts.  `.error ()` is the TypeError thrown
by `.includes` on an absent parentPath. -/
def lsForce_v104 (s1 : Step) : Except Unit Step :=
  if s1.className == some "LocalScript" then
    match s1.parentPath with
    | none => .error ()
    | some p =>
      if hasSubstr p "StarterPlayer" then .ok s1
      else .ok { s1 with parentPath := some "game.StarterPlayer.StarterPlayerScripts" }
  else .ok s1

/-- One iteration of the v10.4 `data.plan.forEach(step => ...)` rule
enforcement, composing the three phases in source order. -/
def enforceStep_v104 (s : Step) : Except Unit Step :=
  match uiRewrite_v104 (stepDefaults_v104 s) with
  | .error e => .error e
  | .ok s1 => lsForce_v104 s1

/-- The v10.4 enforcement over the whole plan (the forEach; a throw at any
step aborts the request, so the partially mutated plan is never sent). -/
def enforcePlan_v104 : List Step → Except Unit (List Step)
  | [] => .ok []
  | s :: rest =>
    match enforceStep_v104 s with
    | .error e => .error e
    | .ok s1 =>
      match enforcePlan_v104 rest with
      | .error e => .error e
      | .ok rest1 => .ok (s1 :: rest1)

/-! ### v18 variant (server.js, second file): plan-mode coercion -/

/-- The per-step coercion performed by the v18 plan mode,
`data.plan.map((step, index) => (\x7b ... \x7d))`: renumber from the array
position and default every field. -/
def coerceStep_v18 (now : Nat) (index : Nat) (s : Step) : Step :=
  { step := some (index + 1),
    description := some (jsOrStr s.description ("Step " ++ toString (index + 1))),
    prompt := some (jsOrStr s.prompt (jsOrStr s.description ("Execute step " ++ toString (index + 1)))),
    type := some (jsOrStr s.type "create"),
    className := some (jsOrStr s.className "Script"),
    name := some (jsOrStr s.name ("Step" ++ toString (index + 1) ++ "_" ++ toString now)),
    parentPath := some (jsOrStr s.parentPath "game.ServerScriptService"),
    properties := some (s.properties.getD []),
    reasoning := some (jsOrStr s.reasoning "Needed for implementation") }

/-- The v18 coercion map over the plan array, carrying the array index. -/
def coercePlan_v18 (now : Nat) : Nat → List Step → List Step
  | _, [] => []
  | i, s :: rest => coerceStep_v18 now i s :: coercePlan_v18 now (i + 1) rest

/-! ### Authentication middleware (v14 and v13 variants) -/

/-- Outcome of the security middleware: pass the request on, or answer
403 with an error body. -/
inductive MwOut where
  | allow
  | deny403
  deriving DecidableEq, Repr

/-- `process.env.ACIDNADE_API_KEY || process.env.API_KEY`. -/
def serverKeyOf (acid api : Option String) : Option String :=
  if truthyS acid then acid else api

/-- The v14 security middleware: no configured key lets everything
through (with a warning); otherwise a client key differing from the
server key is rejected with 403. -/
def authMw_v14 (clientKey acid api : Option String) : MwOut :=
  let serverKey := serverKeyOf acid api
  if !(truthyS serverKey) then .allow
  else if clientKey == serverKey then .allow
  else .deny403

/-- The v13 GET exemptions: `GET /`, `GET /health`, `GET /ping` skip the
key check entirely. -/
def mwExempt_v13 (meth path : String) : Bool :=
  (meth == "GET" && path == "/") || (meth == "GET" && path == "/health")
    || (meth == "GET" && path == "/ping")

/-- The v13 security middleware: the exemptions, then a body identical to
the v14 middleware. -/
def authMw_v13 (meth path : String) (clientKey acid api : Option String) : MwOut :=
  if mwExempt_v13 meth path then .allow
  else authMw_v14 clientKey acid api

/-! ### Claim-side predicates (formalising the wording of claim C4) -/

/-- First disjunct of C4: the enforced plan contains zero steps whose
className is in the nine-class disallowed standalone-UI set. -/
def claimNoDisallowedUI (steps : List Step) : Bool :=
  steps.all (fun st => !(classIn uiInstanceClasses9 st.className))

/-- Second disjunct of C4: every remaining step with a client-visual
class has its parentPath constrained to the permitted location set
(modelled, as in the v10.4 forcing rule, as containing "StarterPlayer"). -/
def claimUIConstrained (steps : List Step) : Bool :=
  steps.all (fun st =>
    !(classIn uiInstanceClasses9 st.className) ||
      (match st.parentPath with
       | some p => hasSubstr p "StarterPlayer"
       | none => false))

/-! ### Helper lemmas -/

theorem string_data_append (a b : String) : (a ++ b).data = a.data ++ b.data := by
  cases a
  cases b
  rfl

theorem data_append_ne_nil (a b : String) (h : a.data ≠ []) : (a ++ b).data ≠ [] := by
  rw [string_data_append]
  intro hc
  exact h (List.append_eq_nil.mp hc).1

theorem append_ne_empty_left (a b : String) (h : a.data ≠ []) : a ++ b ≠ "" := by
  intro hc
  have h2 : (a ++ b).data = a.data ++ b.data := string_data_append a b
  rw [hc] at h2
  exact h (List.append_eq_nil.mp h2.symm).1

theorem delWarn_ne_empty (n : Nat) : delWarn n ≠ "" := by
  unfold delWarn
  exact append_ne_empty_left _ _ (data_append_ne_nil _ _ (by decide))

theorem truthyS_some (s : String) (h : truthyS (some s) = true) : s ≠ "" := by
  simp [truthyS] at h
  exact h

theorem ensureMsg_v14_ok (d : AiData) :
    ∃ m, (ensureMsg_v14 d).message = some m ∧ m ≠ "" := by
  unfold ensureMsg_v14
  by_cases h : truthyS d.message = true
  · rw [if_pos h]
    cases hm : d.message with
    | none => rw [hm] at h; simp [truthyS] at h
    | some s => exact ⟨s, rfl, truthyS_some s (by rw [hm] at h; exact h)⟩
  · rw [if_neg h]
    exact ⟨_, rfl, by decide⟩

theorem ensureMsg_v14_plan (d : AiData) : (ensureMsg_v14 d).plan = d.plan := by
  unfold ensureMsg_v14
  split <;> rfl

theorem processPlan_v14_message (d : AiData) (steps : List Step)
    (h : ∃ m, d.message = some m ∧ m ≠ "") :
    ∃ m, (processPlan_v14 d steps).message = some m ∧ m ≠ "" := by
  obtain ⟨m, hm, hne⟩ := h
  unfold processPlan_v14
  simp only []
  split
  · exact ⟨uiViolationMsg_v14, rfl, by decide⟩
  · split
    · exact ⟨delWarn (delCount steps), rfl, delWarn_ne_empty _⟩
    · split <;> exact ⟨m, hm, hne⟩

theorem mainResp_v14_ok (d0 : AiData) :
    (mainResp_v14 d0).statusOf = 200 ∧
    ∃ m, (mainResp_v14 d0).messageOf = some m ∧ m ≠ "" := by
  unfold mainResp_v14
  cases hp : (ensureMsg_v14 d0).plan with
  | none => exact ⟨rfl, ensureMsg_v14_ok d0⟩
  | some steps => exact ⟨rfl, processPlan_v14_message _ steps (ensureMsg_v14_ok d0)⟩

/-! ### Claim C1 -/

/-- C1 counterexample: in the v9.1 variant a throwing upstream call is
caught only by the top-level catch, which answers
`res.status(500).json(\x7b error \x7d)`: HTTP 500 and no message field, while
the claim demands HTTP 200 with a non-empty message for every POST /ai
request. -/
theorem c1_counterexample :
    (postAi_v91 (some "make a game") (Except.error "network failure") none).1.statusOf = 500 ∧
    (postAi_v91 (some "make a game") (Except.error "network failure") none).1.messageOf = none ∧
    (postAi_v91 (some "make a game") (Except.error "network failure") none).1.errorOf
      = some "network failure" :=
  ⟨rfl, rfl, rfl⟩

/-- C1 (amended): in the v14 variant every POST /ai response is HTTP 200
with a non-empty message string, for all inputs — empty prompt, upstream
throw, unparseable text and a handler exception included; the v9.1
variant, by contrast, answers HTTP 500 with an error body and no message
when the upstream call throws. -/
theorem c1_amended :
    (∀ (prompt : Option String) (apiThrow crash : Bool) (parsed : Option AiData)
       (thinkingX : Option String),
       (postAi_v14 prompt apiThrow crash parsed thinkingX).1.statusOf = 200 ∧
       ∃ m, (postAi_v14 prompt apiThrow crash parsed thinkingX).1.messageOf = some m ∧ m ≠ "") ∧
    (∀ (prompt : Option String) (e : String) (parsed : Option AiData),
       (postAi_v91 prompt (Except.error e) parsed).1.statusOf = 500 ∧
       (postAi_v91 prompt (Except.error e) parsed).1.messageOf = none) := by
  constructor
  · intro prompt apiThrow crash parsed thinkingX
    unfold postAi_v14
    split
    · exact ⟨rfl, "What do you need?", rfl, by decide⟩
    · split
      · exact ⟨rfl, "I\x27ll help you with that!", rfl, by decide⟩
      · split
        · exact ⟨rfl, "I\x27m ready to help! What do you need?", rfl, by decide⟩
        · exact mainResp_v14_ok _
  · intro prompt e parsed
    exact ⟨rfl, rfl⟩

/-! ### Claim C6 -/

/-- C6 counterexample: the v9.1 variant has no empty-prompt guard — a
request with a missing prompt still invokes the generation client (the
second component of the model is the invocation flag), while the claim
requires that no call be made. -/
theorem c6_counterexample :
    (postAi_v91 none (Except.ok "hello") none).2 = true ∧
    (postAi_v91 none (Except.ok "hello") none).1.messageOf = some "hello" := by
  constructor
  · rfl
  · decide

/-- C6 (amended): in the v14 variant an empty or missing prompt is
answered immediately with the canned prompting message and an empty plan,
and the generation client is not invoked; the v9.1 variant has no such
guard and always invokes the generation client, prompt or not. -/
theorem c6_amended :
    (∀ (prompt : Option String) (apiThrow crash : Bool) (parsed : Option AiData)
       (thinkingX : Option String), promptEmpty prompt = true →
       postAi_v14 prompt apiThrow crash parsed thinkingX =
         (.json 200 { message := some "What do you need?", plan := some [],
                      autoExecute := some true }, false)) ∧
    (∀ (prompt : Option String) (upstream : Except String String) (parsed : Option AiData),
       (postAi_v91 prompt upstream parsed).2 = true) := by
  constructor
  · intro prompt apiThrow crash parsed thinkingX h
    unfold postAi_v14
    rw [h]
    rfl
  · intro prompt upstream parsed
    unfold postAi_v91
    cases upstream <;> rfl

/-- C6 witness. -/
theorem c6_witness :
    postAi_v14 (some "   ") false false none none =
      (.json 200 { message := some "What do you need?", plan := some [],
                   autoExecute := some true }, false) :=
  c6_amended.1 (some "   ") false false none none (by decide)

/-! ### Claim C7 -/

/-- C7 counterexample: in the v13 variant `GET /health` is exempt from the
key check, so a configured server key together with a mismatching client
key is still allowed through — the claim demands HTTP 403 for every
request with a mismatching key. -/
theorem c7_counterexample :
    serverKeyOf (some "secret") none = some "secret" ∧
    (some "wrong" : Option String) ≠ some "secret" ∧
    authMw_v13 "GET" "/health" (some "wrong") (some "secret") none = .allow := by
  refine ⟨rfl, by decide, by decide⟩

/-- C7 (amended): when a server key is configured and the client key
differs, the v14 middleware answers 403; with no configured key every
request is allowed; the v13 middleware behaves identically except that
`GET /`, `GET /health` and `GET /ping` are always exempt. -/
theorem c7_amended :
    (∀ (ck acid api : Option String) (k : String),
       serverKeyOf acid api = some k → k ≠ "" → ck ≠ some k →
       authMw_v14 ck acid api = .deny403) ∧
    (∀ (ck acid api : Option String),
       truthyS (serverKeyOf acid api) = false → authMw_v14 ck acid api = .allow) ∧
    (∀ (meth path : String) (ck acid api : Option String),
       mwExempt_v13 meth path = true → authMw_v13 meth path ck acid api = .allow) ∧
    (∀ (meth path : String) (ck acid api : Option String),
       mwExempt_v13 meth path = false →
       authMw_v13 meth path ck acid api = authMw_v14 ck acid api) := by
  refine ⟨?_, ?_, ?_, ?_⟩
  · intro ck acid api k hkey hk hck
    unfold authMw_v14
    rw [hkey]
    have h1 : truthyS (some k) = true := by simp [truthyS]; exact hk
    have h2 : (ck == some k) = false := beq_eq_false_iff_ne.mpr hck
    simp [h1, h2]
  · intro ck acid api h
    unfold authMw_v14
    simp [h]
  · intro meth path ck acid api h
    unfold authMw_v13
    simp [h]
  · intro meth path ck acid api h
    unfold authMw_v13
    simp [h]

/-- C7 witness. -/
theorem c7_witness :
    authMw_v14 (some "wrong") (some "secret") none = .deny403 ∧
    authMw_v14 none none none = .allow ∧
    authMw_v13 "GET" "/ping" (some "wrong") (some "secret") none = .allow :=
  ⟨c7_amended.1 (some "wrong") (some "secret") none "secret" rfl (by decide) (by decide),
   c7_amended.2.1 none none none (by decide),
   c7_amended.2.2.1 "GET" "/ping" (some "wrong") (some "secret") none (by decide)⟩

/-! ### Claim C10 -/

theorem mapGet_mapSet_self (m : SessionMap) (k : Option String) (v : Session) :
    mapGet (mapSet m k v) k = some v := by
  simp [mapGet, mapSet, List.find?]

theorem storeLastPlan_v18_get (sessionId : Option String) (idea : String)
    (pl : Option (List Step)) (now : Nat) (m : SessionMap) :
    mapGet (storeLastPlan_v18 sessionId idea pl now m) (some (sessionKey_v18 sessionId)) =
      some { (getSession (some (sessionKey_v18 sessionId)) m).1 with
             lastPlan := some { originalIdea := idea, plan := pl, timestamp := now } } := by
  unfold storeLastPlan_v18
  exact mapGet_mapSet_self _ _ _

theorem sessionKey_falsy (sid : Option String) (h : truthyS sid = false) :
    sessionKey_v18 sid = "default" := by
  cases sid with
  | none => rfl
  | some s =>
    simp [truthyS] at h
    simp [sessionKey_v18, jsOrStr, h]

/-- C10: the v17.0/v17.1/v18 /ai handlers key their session on
`sessionId || 'default'`, so a request with an omitted (or empty)
sessionId is served under the literal key "default"; the session write of
one such request (the v18 plan-mode `session.lastPlan` store) is read by
any later such request through the same map entry, regardless of caller. -/
theorem c10_theorem :
    sessionKey_v18 none = "default" ∧
    sessionKey_v18 (some "") = "default" ∧
    ∀ (m : SessionMap) (sid1 sid2 : Option String) (idea : String)
      (pl : Option (List Step)) (now : Nat),
      truthyS sid1 = false → truthyS sid2 = false →
      (∃ s, mapGet (storeLastPlan_v18 sid1 idea pl now m) (some "default") = some s ∧
         s.lastPlan = some { originalIdea := idea, plan := pl, timestamp := now }) ∧
      (getSession (some (sessionKey_v18 sid2)) (storeLastPlan_v18 sid1 idea pl now m)).1.lastPlan
        = some { originalIdea := idea, plan := pl, timestamp := now } := by
  refine ⟨rfl, rfl, ?_⟩
  intro m sid1 sid2 idea pl now h1 h2
  have k1 := sessionKey_falsy sid1 h1
  have k2 := sessionKey_falsy sid2 h2
  have hg := storeLastPlan_v18_get sid1 idea pl now m
  rw [k1] at hg
  constructor
  · exact ⟨_, hg, rfl⟩
  · unfold getSession
    rw [k2, hg]

/-- C10 witness. -/
theorem c10_witness :
    (∃ s, mapGet (storeLastPlan_v18 none "pet shop" none 5 ([] : SessionMap)) (some "default")
        = some s ∧
       s.lastPlan = some { originalIdea := "pet shop", plan := none, timestamp := 5 }) ∧
    (getSession (some (sessionKey_v18 (some "")))
        (storeLastPlan_v18 none "pet shop" none 5 ([] : SessionMap))).1.lastPlan
      = some { originalIdea := "pet shop", plan := none, timestamp := 5 } :=
  (c10_theorem.2.2 ([] : SessionMap) none (some "") "pet shop" none 5 (by decide) (by decide))

/-! ### Claim C3 -/

theorem jsOrStr_ne_empty (a : Option String) (b : String) (h : b ≠ "") :
    jsOrStr a b ≠ "" := by
  cases a with
  | none => exact h
  | some s =>
    show (if s == "" then b else s) ≠ ""
    by_cases hs : (s == "") = true
    · rw [if_pos hs]; exact h
    · rw [if_neg hs]
      simp at hs
      exact hs

theorem coercePlan_v18_length (now k : Nat) (steps : List Step) :
    (coercePlan_v18 now k steps).length = steps.length := by
  induction steps generalizing k with
  | nil => rfl
  | cons s rest ih => simp [coercePlan_v18, ih]

theorem coercePlan_v18_get (now k : Nat) (steps : List Step) (i : Nat)
    (hi : i < (coercePlan_v18 now k steps).length) (hi2 : i < steps.length) :
    (coercePlan_v18 now k steps).get ⟨i, hi⟩
      = coerceStep_v18 now (k + i) (steps.get ⟨i, hi2⟩) := by
  induction steps generalizing k i with
  | nil => exact absurd hi2 (Nat.not_lt_zero i)
  | cons s rest ih =>
    cases i with
    | zero => simp [coercePlan_v18]
    | succ j =>
      have hj : j < (coercePlan_v18 now (k + 1) rest).length := by
        have := hi
        simpa [coercePlan_v18] using this
      have hj2 : j < rest.length := Nat.lt_of_succ_lt_succ hi2
      have := ih (k + 1) j hj hj2
      simp only [coercePlan_v18, List.get]
      rw [this]
      congr 1
      omega

/-- C3 counterexample: the v14 variant returns parsed plan steps
unchanged — no renumbering and no field defaulting.  A parsed plan whose
only element carries `step: 7` and no `type` field is returned as-is, so
the first element of the returned plan has `step` equal to 7 (the claim
requires 1) and an absent `type` (the claim requires a non-empty one). -/
theorem c3_counterexample :
    (postAi_v14 (some "build it") false false
       (some { message := some "ok",
               plan := some [{ step := some 7, className := some "Script",
                               name := some "A",
                               parentPath := some "game.ServerScriptService" }] })
       none).1.planOf
      = some [{ step := some 7, className := some "Script", name := some "A",
                parentPath := some "game.ServerScriptService" }] ∧
    ({ step := some 7, className := some "Script", name := some "A",
       parentPath := some "game.ServerScriptService" } : Step).step ≠ some 1 ∧
    ({ step := some 7, className := some "Script", name := some "A",
       parentPath := some "game.ServerScriptService" } : Step).type = none := by
  refine ⟨by decide, by decide, rfl⟩

/-- C3 (amended): the v18 plan-mode coercion map renumbers the returned
plan so that the element at 0-based index `i` carries `step = i + 1`
(hence the step fields are exactly 1..N in array order), and gives every
element a non-empty `type`, `className`, `name` and `parentPath` and an
object `properties` field.  The v14 variant performs no such coercion and
returns the parsed steps unchanged. -/
theorem c3_amended (now : Nat) (steps : List Step) :
    (coercePlan_v18 now 0 steps).length = steps.length ∧
    ∀ (i : Nat) (hi : i < (coercePlan_v18 now 0 steps).length),
      ((coercePlan_v18 now 0 steps).get ⟨i, hi⟩).step = some (i + 1) ∧
      (∃ t, ((coercePlan_v18 now 0 steps).get ⟨i, hi⟩).type = some t ∧ t ≠ "") ∧
      (∃ c, ((coercePlan_v18 now 0 steps).get ⟨i, hi⟩).className = some c ∧ c ≠ "") ∧
      (∃ nm, ((coercePlan_v18 now 0 steps).get ⟨i, hi⟩).name = some nm ∧ nm ≠ "") ∧
      (∃ p, ((coercePlan_v18 now 0 steps).get ⟨i, hi⟩).parentPath = some p ∧ p ≠ "") ∧
      (∃ ps, ((coercePlan_v18 now 0 steps).get ⟨i, hi⟩).properties = some ps) := by
  refine ⟨coercePlan_v18_length now 0 steps, ?_⟩
  intro i hi
  have hi2 : i < steps.length := by
    rw [← coercePlan_v18_length now 0 steps]
    exact hi
  rw [coercePlan_v18_get now 0 steps i hi hi2]
  unfold coerceStep_v18
  refine ⟨by simp, ?_, ?_, ?_, ?_, ?_⟩
  · exact ⟨_, rfl, jsOrStr_ne_empty _ _ (by decide)⟩
  · exact ⟨_, rfl, jsOrStr_ne_empty _ _ (by decide)⟩
  · refine ⟨_, rfl, jsOrStr_ne_empty _ _ ?_⟩
    exact append_ne_empty_left _ _ (data_append_ne_nil _ _ (data_append_ne_nil _ _ (by decide)))
  · exact ⟨_, rfl, jsOrStr_ne_empty _ _ (by decide)⟩
  · exact ⟨_, rfl⟩

/-- C3 witness. -/
theorem c3_witness :
    ((coercePlan_v18 7 0 [({} : Step)]).get ⟨0, by decide⟩).step = some 1 :=
  ((c3_amended 7 [({} : Step)]).2 0 (by decide)).1

/-! ### Claim C9 -/

theorem lsForce_v104_ok (s1 s2 : Step) (h : lsForce_v104 s1 = .ok s2) :
    (s2.className = s1.className) ∧
    (s2.className = some "LocalScript" →
       ∃ p, s2.parentPath = some p ∧ hasSubstr p "StarterPlayer" = true) ∧
    (s1.className = some "LocalScript" →
       ∀ p, s1.parentPath = some p → hasSubstr p "StarterPlayer" = false →
         s2.parentPath = some "game.StarterPlayer.StarterPlayerScripts") := by
  unfold lsForce_v104 at h
  by_cases hls : (s1.className == some "LocalScript") = true
  · rw [if_pos hls] at h
    cases hp : s1.parentPath with
    | none => rw [hp] at h; simp at h
    | some p =>
      rw [hp] at h
      simp only [] at h
      by_cases hsub : hasSubstr p "StarterPlayer" = true
      · rw [if_pos hsub] at h
        cases h
        refine ⟨rfl, ?_, ?_⟩
        · intro _
          exact ⟨p, hp, hsub⟩
        · intro _ q hq hqf
          cases hq
          exact absurd hsub (by rw [hqf]; decide)
      · rw [if_neg hsub] at h
        cases h
        refine ⟨rfl, ?_, ?_⟩
        · intro _
          exact ⟨_, rfl, by decide⟩
        · intro _ _ _ _
          rfl
  · rw [if_neg hls] at h
    cases h
    have hcls : s1.className ≠ some "LocalScript" := by
      intro hc
      rw [hc] at hls
      exact hls (by decide)
    exact ⟨rfl, fun hc => absurd hc hcls, fun hc => absurd hc hcls⟩

theorem uiRewrite_v104_ok (sA s1 : Step) (h : uiRewrite_v104 sA = .ok s1) :
    (classIn uiClasses11_v104 sA.className = true →
       s1.className = some "LocalScript" ∧
       s1.parentPath = some "game.StarterPlayer.StarterPlayerScripts") ∧
    (classIn uiClasses11_v104 sA.className = false → s1 = sA) := by
  unfold uiRewrite_v104 at h
  by_cases hui : classIn uiClasses11_v104 sA.className = true
  · rw [if_pos hui] at h
    cases hn : sA.name with
    | none => rw [hn] at h; simp at h
    | some nm =>
      rw [hn] at h
      simp only [] at h
      cases h
      refine ⟨fun _ => ⟨rfl, rfl⟩, fun hc => absurd hui (by rw [hc]; decide)⟩
  · rw [if_neg hui] at h
    cases h
    refine ⟨fun hc => absurd hc hui, fun _ => rfl⟩

theorem enforceStep_v104_localscript (s s2 : Step) (h : enforceStep_v104 s = .ok s2) :
    (s2.className = some "LocalScript" →
       ∃ p, s2.parentPath = some p ∧ hasSubstr p "StarterPlayer" = true) ∧
    (s.className = some "LocalScript" →
       ∀ p, s.parentPath = some p → hasSubstr p "StarterPlayer" = false →
         s2.parentPath = some "game.StarterPlayer.StarterPlayerScripts") := by
  unfold enforceStep_v104 at h
  cases hu : uiRewrite_v104 (stepDefaults_v104 s) with
  | error e => rw [hu] at h; cases h
  | ok s1 =>
    rw [hu] at h
    have hlf := lsForce_v104_ok s1 s2 h
    have hdefCls : (stepDefaults_v104 s).className = s.className := rfl
    have hdefPath : (stepDefaults_v104 s).parentPath = s.parentPath := rfl
    have hur := uiRewrite_v104_ok (stepDefaults_v104 s) s1 hu
    constructor
    · exact hlf.2.1
    · intro hc p hp hpf
      have hui : classIn uiClasses11_v104 (stepDefaults_v104 s).className = false := by
        rw [hdefCls, hc]
        decide
      have hs1 : s1 = stepDefaults_v104 s := hur.2 hui
      apply hlf.2.2
      · rw [hs1, hdefCls]; exact hc
      · rw [hs1, hdefPath]; exact hp
      · exact hpf

/-- C9: after the v10.4 plan enforcement completes, every step whose
className is "LocalScript" has a parentPath containing the substring
"StarterPlayer", and any input LocalScript step whose parentPath lacked
that substring has been rewritten in place to
"game.StarterPlayer.StarterPlayerScripts". -/
theorem c9_theorem (steps out : List Step) (h : enforcePlan_v104 steps = .ok out) :
    (∀ st ∈ out, st.className = some "LocalScript" →
       ∃ p, st.parentPath = some p ∧ hasSubstr p "StarterPlayer" = true) ∧
    List.Forall₂ (fun s s1 => s.className = some "LocalScript" →
       ∀ p, s.parentPath = some p → hasSubstr p "StarterPlayer" = false →
         s1.parentPath = some "game.StarterPlayer.StarterPlayerScripts") steps out := by
  induction steps generalizing out with
  | nil =>
    cases h
    exact ⟨(by intro st hst; cases hst), List.Forall₂.nil⟩
  | cons s rest ih =>
    unfold enforcePlan_v104 at h
    cases hs : enforceStep_v104 s with
    | error e => rw [hs] at h; simp at h
    | ok s1 =>
      rw [hs] at h
      simp only [] at h
      cases hr : enforcePlan_v104 rest with
      | error e => rw [hr] at h; simp at h
      | ok rest1 =>
        rw [hr] at h
        simp only [] at h
        cases h
        have hstep := enforceStep_v104_localscript s s1 hs
        have hrest := ih rest1 hr
        constructor
        · intro st hst
          cases hst with
          | head => exact hstep.1
          | tail _ hmem => exact hrest.1 st hmem
        · exact List.Forall₂.cons hstep.2 hrest.2

/-- C9 witness: a LocalScript step parked in the workspace is rewritten
to StarterPlayerScripts. -/
theorem c9_witness :
    ∃ p, ({ type := some "create", className := some "LocalScript", name := some "A",
            parentPath := some "game.StarterPlayer.StarterPlayerScripts",
            requiresConfirmation := some false, timeout := some 5 } : Step).parentPath
        = some p ∧ hasSubstr p "StarterPlayer" = true :=
  (c9_theorem
    [{ type := some "create", className := some "LocalScript", name := some "A",
       parentPath := some "game.Workspace" }]
    [{ type := some "create", className := some "LocalScript", name := some "A",
       parentPath := some "game.StarterPlayer.StarterPlayerScripts",
       requiresConfirmation := some false, timeout := some 5 }]
    (by rfl)).1
    { type := some "create", className := some "LocalScript", name := some "A",
      parentPath := some "game.StarterPlayer.StarterPlayerScripts",
      requiresConfirmation := some false, timeout := some 5 }
    (by decide) rfl

/-! ### Claim C5 -/

theorem buildUndo_length (k : Nat) (l : List Step) :
    (buildUndo k l).length = l.length := by
  induction l generalizing k with
  | nil => rfl
  | cons s rest ih => simp [buildUndo, ih]

theorem buildUndo_delete (k : Nat) (l : List Step) :
    ∀ st ∈ buildUndo k l, st.type = some "delete" := by
  induction l generalizing k with
  | nil => intro st hst; cases hst
  | cons s rest ih =>
    intro st hst
    cases hst with
    | head => rfl
    | tail _ hmem => exact ih (k + 1) st hmem

theorem buildUndo_copies (k : Nat) (l : List Step) :
    List.Forall₂ (fun u s => u.className = s.className ∧ u.name = s.name ∧
      u.parentPath = s.parentPath) (buildUndo k l) l := by
  induction l generalizing k with
  | nil => exact List.Forall₂.nil
  | cons s rest ih => exact List.Forall₂.cons ⟨rfl, rfl, rfl⟩ (ih (k + 1))

theorem capLog_concat_getLast (l : List LogEntry) (e : LogEntry) :
    (capLog (l ++ [e])).getLast? = some e := by
  unfold capLog
  split
  · cases l with
    | nil => simp_all
    | cons a t =>
      show (t ++ [e]).getLast? = some e
      exact List.getLast?_concat _
  · exact List.getLast?_concat _

/-- C5: logging a creation plan of non-delete steps with
`addToCreationLog` and then calling POST /undo for that session yields a
plan of exactly as many steps, each of type "delete", copying each
original step's className, name and parentPath in order, with
`needsApproval = true` and `autoExecute = false`. -/
theorem c5_roundtrip (m : SessionMap) (sid : String) (now : Nat) (d : AiData)
    (steps : List Step) (hsid : sid ≠ "") (hplan : d.plan = some steps)
    (hnodel : ∀ st ∈ steps, st.type ≠ some "delete") :
    (undo_v171 (some sid) (addToCreationLog now (some sid) d m)).1.statusOf = 200 ∧
    (undo_v171 (some sid) (addToCreationLog now (some sid) d m)).1.planOf
      = some (buildUndo 0 steps) ∧
    (buildUndo 0 steps).length = steps.length ∧
    (∀ st ∈ buildUndo 0 steps, st.type = some "delete") ∧
    List.Forall₂ (fun u s => u.className = s.className ∧ u.name = s.name ∧
      u.parentPath = s.parentPath) (buildUndo 0 steps) steps ∧
    (undo_v171 (some sid) (addToCreationLog now (some sid) d m)).1.approvalOf = some true ∧
    (undo_v171 (some sid) (addToCreationLog now (some sid) d m)).1.autoExecOf = some false := by
  have hguard : truthyS (some sid) = true := by
    simp [truthyS]
    exact hsid
  have hfound : mapGet (addToCreationLog now (some sid) d m) (some sid) =
      some { (getSession (some sid) m).1 with
             creationLog := capLog ((getSession (some sid) m).1.creationLog
               ++ [logEntryOf now d]),
             canUndo := true } := by
    have hset : addToCreationLog now (some sid) d m =
        mapSet (getSession (some sid) m).2 (some sid)
          { (getSession (some sid) m).1 with
            creationLog := capLog ((getSession (some sid) m).1.creationLog
              ++ [logEntryOf now d]),
            canUndo := true } := rfl
    rw [hset]
    exact mapGet_mapSet_self _ _ _
  have hlast : (capLog ((getSession (some sid) m).1.creationLog
      ++ [logEntryOf now d])).getLast? = some (logEntryOf now d) :=
    capLog_concat_getLast _ _
  unfold undo_v171
  rw [if_neg (by rw [hguard]; decide)]
  unfold getSession
  rw [hfound]
  simp only []
  rw [hlast]
  simp only []
  have hprojplan : (logEntryOf now d).plan.plan = some steps := hplan
  rw [hprojplan]
  simp only []
  exact ⟨rfl, rfl, buildUndo_length 0 steps, buildUndo_delete 0 steps,
    buildUndo_copies 0 steps, rfl, rfl⟩

/-- C5 witness. -/
theorem c5_witness :
    (undo_v171 (some "s1")
      (addToCreationLog 3 (some "s1")
        { message := some "done",
          plan := some [{ type := some "create", className := some "Script",
                          name := some "A", parentPath := some "game.ServerScriptService" },
                        { type := some "create", className := some "LocalScript",
                          name := some "B",
                          parentPath := some "game.StarterPlayer.StarterPlayerScripts" }] }
        ([] : SessionMap))).1.approvalOf = some true :=
  (c5_roundtrip ([] : SessionMap) "s1" 3
    { message := some "done",
      plan := some [{ type := some "create", className := some "Script",
                      name := some "A", parentPath := some "game.ServerScriptService" },
                    { type := some "create", className := some "LocalScript",
                      name := some "B",
                      parentPath := some "game.StarterPlayer.StarterPlayerScripts" }] }
    [{ type := some "create", className := some "Script",
       name := some "A", parentPath := some "game.ServerScriptService" },
     { type := some "create", className := some "LocalScript",
       name := some "B", parentPath := some "game.StarterPlayer.StarterPlayerScripts" }]
    (by decide) rfl (by decide)).2.2.2.2.2.1

/-! ### Plan-path and gate lemmas for the v14, v15 and v17.1 handlers -/

theorem postAi_v14_plan_path (prompt : Option String) (parsed : Option AiData)
    (thinkingX : Option String) (d : AiData) (steps : List Step)
    (hp : promptEmpty prompt = false) (hd : parsed = some d) (hplan : d.plan = some steps) :
    (postAi_v14 prompt false false parsed thinkingX).1 =
      .json 200 (processPlan_v14 (ensureMsg_v14 d) steps) := by
  subst hd
  unfold postAi_v14
  rw [if_neg (by rw [hp]; decide)]
  show mainResp_v14 d = _
  unfold mainResp_v14
  have h1 : (ensureMsg_v14 d).plan = some steps := by
    rw [ensureMsg_v14_plan]
    exact hplan
  rw [h1]

theorem processPlan_v14_gate (d : AiData) (steps : List Step)
    (hui : steps.any (fun st => classIn uiInstanceClasses9 st.className) = false) :
    (5 ≤ delCount steps →
      (processPlan_v14 d steps).needsApproval = some true ∧
      (processPlan_v14 d steps).autoExecute = some false ∧
      (processPlan_v14 d steps).message = some (delWarn (delCount steps))) ∧
    (delCount steps < 5 → (processPlan_v14 d steps).needsApproval = some false) := by
  constructor
  · intro h5
    simp only [processPlan_v14]
    rw [if_neg (by rw [hui]; decide), if_pos h5]
    exact ⟨rfl, rfl, rfl⟩
  · intro h5
    simp only [processPlan_v14]
    rw [if_neg (by rw [hui]; decide), if_neg (by omega)]

theorem processPlan_v14_override (d : AiData) (steps : List Step)
    (hui : steps.any (fun st => classIn uiInstanceClasses9 st.className) = true) :
    (processPlan_v14 d steps).message = some uiViolationMsg_v14 ∧
    (processPlan_v14 d steps).needsApproval = some true ∧
    (processPlan_v14 d steps).autoExecute = some false := by
  simp only [processPlan_v14]
  rw [if_pos hui]
  exact ⟨rfl, rfl, rfl⟩

theorem processPlan_v14_kept (d : AiData) (steps : List Step) :
    (processPlan_v14 d steps).plan
      = some (steps.filter (fun st => !(classIn uiInstanceClasses9 st.className))) := by
  simp only [processPlan_v14]
  split <;> rfl

theorem mainResp_v14_noUI (d0 : AiData) (ks : List Step)
    (h : (mainResp_v14 d0).planOf = some ks) : claimNoDisallowedUI ks = true := by
  unfold mainResp_v14 at h
  cases hp : (ensureMsg_v14 d0).plan with
  | none =>
    rw [hp] at h
    simp only [] at h
    simp [HttpResp.planOf, hp] at h
  | some steps =>
    rw [hp] at h
    simp only [] at h
    simp only [HttpResp.planOf] at h
    rw [processPlan_v14_kept] at h
    simp at h
    subst h
    simp only [claimNoDisallowedUI, List.all_eq_true]
    intro st hst
    exact (List.mem_filter.mp hst).2

theorem ensureMsg_v15_plan (d : AiData) : (ensureMsg_v15 d).plan = d.plan := by
  unfold ensureMsg_v15
  split <;> rfl

theorem ideasGate_v15_plan (ur : String) (d : AiData) :
    (ideasGate_v15 ur d).plan = d.plan := by
  simp only [ideasGate_v15]
  split
  · split <;> rfl
  · rfl

theorem postAi_v15_plan_path (prompt : Option String) (raw : String)
    (parsed : Option AiData) (thinkingX : Option String) (d : AiData) (steps : List Step)
    (hp : promptEmpty prompt = false) (hd : parsed = some d) (hplan : d.plan = some steps) :
    postAi_v15 prompt false false false raw parsed thinkingX =
      .json 200 (processPlan_v15
        (ensureMsg_v15 (ideasGate_v15 (trimS (prompt.getD "")) d)) steps) := by
  subst hd
  unfold postAi_v15
  rw [if_neg (by rw [hp]; decide)]
  show (match (ensureMsg_v15 (ideasGate_v15 (trimS (prompt.getD "")) d)).plan with
        | none => HttpResp.json 200 (ensureMsg_v15 (ideasGate_v15 (trimS (prompt.getD "")) d))
        | some steps => HttpResp.json 200
            (processPlan_v15 (ensureMsg_v15 (ideasGate_v15 (trimS (prompt.getD "")) d)) steps)) = _
  have h1 : (ensureMsg_v15 (ideasGate_v15 (trimS (prompt.getD "")) d)).plan = some steps := by
    rw [ensureMsg_v15_plan, ideasGate_v15_plan]
    exact hplan
  rw [h1]

theorem processPlan_v15_override (d : AiData) (steps : List Step)
    (hui : steps.any (fun st => classIn uiInstanceClasses9 st.className) = true) :
    (processPlan_v15 d steps).message = some uiViolationMsg_v15 ∧
    (processPlan_v15 d steps).needsApproval = some true ∧
    (processPlan_v15 d steps).autoExecute = some false := by
  simp only [processPlan_v15]
  rw [if_pos hui]
  exact ⟨rfl, rfl, rfl⟩

theorem noPlanRewrite_v171_id (ur : String) (d : AiData)
    (hpe : planEmptyOpt d.plan = false) : noPlanRewrite_v171 ur d = d := by
  unfold noPlanRewrite_v171
  rw [if_neg (by rw [hpe]; simp)]

theorem postAi_v171_plan_path (now : Nat) (prompt sessionId : Option String)
    (m : SessionMap) (parsed : Option AiData) (d : AiData) (steps : List Step)
    (hp : promptEmpty prompt = false) (hd : parsed = some d) (hplan : d.plan = some steps)
    (hne : 0 < steps.length) :
    (postAi_v171 now prompt sessionId m false false false parsed).1 =
      .json 200 (processPlan_v171 now sessionId (some (jsOrStr sessionId "default"))
        ((getSession (some (jsOrStr sessionId "default")) m).2) d steps).1 := by
  subst hd
  have hpe : planEmptyOpt d.plan = false := by
    rw [hplan]
    cases steps with
    | nil => exact absurd hne (by decide)
    | cons a t => rfl
  unfold postAi_v171
  rw [if_neg (by rw [hp]; decide)]
  show (match (noPlanRewrite_v171 (lowerS (trimS (prompt.getD ""))) d).plan with
        | none => (HttpResp.json 200 (noPlanRewrite_v171 (lowerS (trimS (prompt.getD ""))) d),
                   (getSession (some (jsOrStr sessionId "default")) m).2)
        | some steps =>
          (HttpResp.json 200
             (processPlan_v171 now sessionId (some (jsOrStr sessionId "default"))
               ((getSession (some (jsOrStr sessionId "default")) m).2)
               (noPlanRewrite_v171 (lowerS (trimS (prompt.getD ""))) d) steps).1,
           (processPlan_v171 now sessionId (some (jsOrStr sessionId "default"))
               ((getSession (some (jsOrStr sessionId "default")) m).2)
               (noPlanRewrite_v171 (lowerS (trimS (prompt.getD ""))) d) steps).2)).1 = _
  rw [noPlanRewrite_v171_id _ _ hpe, hplan]

theorem processPlan_v171_gate (now : Nat) (sessionId key : Option String)
    (m1 : SessionMap) (d : AiData) (steps : List Step) (h5 : 5 ≤ delCount steps) :
    (processPlan_v171 now sessionId key m1 d steps).1.needsApproval = some true ∧
    (processPlan_v171 now sessionId key m1 d steps).1.autoExecute = some false ∧
    (processPlan_v171 now sessionId key m1 d steps).1.message = d.message := by
  have hlen : 0 < steps.length := by
    have hle : delCount steps ≤ steps.length := List.length_filter_le _ _
    omega
  simp only [processPlan_v171]
  rw [if_pos h5, if_pos hlen]
  exact ⟨rfl, rfl, rfl⟩

/-! ### Claim C2 -/

/-- C2 counterexample: the v17.1 deletion gate sets `needsApproval` and
`autoExecute` for six delete steps but never rewrites the message — the
response keeps the parsed message "hello", which does not contain "6",
while the claim requires the message to be rewritten to a warning naming
the count. -/
theorem c2_counterexample :
    (postAi_v171 0 (some "remove parts") (some "sess") ([] : SessionMap) false false false
      (some { message := some "hello",
              plan := some (List.replicate 6
                { type := some "delete", className := some "Part",
                  name := some "X" }) })).1.approvalOf = some true ∧
    (postAi_v171 0 (some "remove parts") (some "sess") ([] : SessionMap) false false false
      (some { message := some "hello",
              plan := some (List.replicate 6
                { type := some "delete", className := some "Part",
                  name := some "X" }) })).1.autoExecOf = some false ∧
    (postAi_v171 0 (some "remove parts") (some "sess") ([] : SessionMap) false false false
      (some { message := some "hello",
              plan := some (List.replicate 6
                { type := some "delete", className := some "Part",
                  name := some "X" }) })).1.messageOf = some "hello" ∧
    hasSubstr "hello" "6" = false := by
  refine ⟨by decide, by decide, by decide, by decide⟩

/-- C2 (amended): counting the steps with `type = "delete"` as `D`: in
the v14 variant, when no step is removed by the UI filter, `D ≥ 5` yields
`needsApproval = true`, `autoExecute = false` and the message rewritten to
the warning naming `D`, and `D < 5` yields `needsApproval = false`; the
v17.1 variant sets `needsApproval = true` and `autoExecute = false` for
`D ≥ 5` but leaves the message unchanged (and leaves `needsApproval`
untouched otherwise).  The 6-delete-step scenario yields approval, no
auto-execution, and (in v14) a message containing "6". -/
theorem c2_amended :
    (∀ (prompt : Option String) (parsed : Option AiData) (thinkingX : Option String)
       (d : AiData) (steps : List Step),
       promptEmpty prompt = false → parsed = some d → d.plan = some steps →
       steps.any (fun st => classIn uiInstanceClasses9 st.className) = false →
       (5 ≤ delCount steps →
         (postAi_v14 prompt false false parsed thinkingX).1.approvalOf = some true ∧
         (postAi_v14 prompt false false parsed thinkingX).1.autoExecOf = some false ∧
         (postAi_v14 prompt false false parsed thinkingX).1.messageOf
           = some (delWarn (delCount steps))) ∧
       (delCount steps < 5 →
         (postAi_v14 prompt false false parsed thinkingX).1.approvalOf = some false)) ∧
    (∀ (now : Nat) (prompt sessionId : Option String) (m : SessionMap)
       (parsed : Option AiData) (d : AiData) (steps : List Step),
       promptEmpty prompt = false → parsed = some d → d.plan = some steps →
       5 ≤ delCount steps →
       (postAi_v171 now prompt sessionId m false false false parsed).1.approvalOf
         = some true ∧
       (postAi_v171 now prompt sessionId m false false false parsed).1.autoExecOf
         = some false ∧
       (postAi_v171 now prompt sessionId m false false false parsed).1.messageOf
         = d.message) := by
  constructor
  · intro prompt parsed thinkingX d steps hp hd hplan hui
    have hpath := postAi_v14_plan_path prompt parsed thinkingX d steps hp hd hplan
    have hgate := processPlan_v14_gate (ensureMsg_v14 d) steps hui
    constructor
    · intro h5
      have hg := hgate.1 h5
      rw [hpath]
      exact ⟨hg.1, hg.2.1, hg.2.2⟩
    · intro h5
      rw [hpath]
      exact hgate.2 h5
  · intro now prompt sessionId m parsed d steps hp hd hplan h5
    have hlen : 0 < steps.length := by
      have hle : delCount steps ≤ steps.length := List.length_filter_le _ _
      omega
    have hpath := postAi_v171_plan_path now prompt sessionId m parsed d steps hp hd hplan hlen
    have hgate := processPlan_v171_gate now sessionId (some (jsOrStr sessionId "default"))
      ((getSession (some (jsOrStr sessionId "default")) m).2) d steps h5
    rw [hpath]
    exact ⟨hgate.1, hgate.2.1, hgate.2.2⟩

/-- C2 witness: the six-delete-step scenario in the v14 variant. -/
theorem c2_witness :
    ((postAi_v14 (some "clean up") false false
        (some { message := some "hello",
                plan := some (List.replicate 6
                  { type := some "delete", className := some "Script",
                    name := some "X" }) })
        none).1.approvalOf = some true ∧
     (postAi_v14 (some "clean up") false false
        (some { message := some "hello",
                plan := some (List.replicate 6
                  { type := some "delete", className := some "Script",
                    name := some "X" }) })
        none).1.autoExecOf = some false ∧
     (postAi_v14 (some "clean up") false false
        (some { message := some "hello",
                plan := some (List.replicate 6
                  { type := some "delete", className := some "Script",
                    name := some "X" }) })
        none).1.messageOf = some (delWarn 6)) ∧
    hasSubstr (delWarn 6) "6" = true :=
  ⟨(c2_amended.1 (some "clean up")
      (some { message := some "hello",
              plan := some (List.replicate 6
                { type := some "delete", className := some "Script",
                  name := some "X" }) })
      none
      { message := some "hello",
        plan := some (List.replicate 6
          { type := some "delete", className := some "Script", name := some "X" }) }
      (List.replicate 6
        { type := some "delete", className := some "Script", name := some "X" })
      (by decide) rfl rfl (by decide)).1 (by decide),
   by decide⟩

/-! ### Claim C4 -/

/-- C4 counterexample: the v17.1 filter checks only six UI classes, so a
TextBox step (a member of the claimed nine-class disallowed set) survives
enforcement with its parentPath pointing at the workspace — both
disjuncts of the claim are violated at once. -/
theorem c4_counterexample :
    (postAi_v171 0 (some "make a textbox") (some "s") ([] : SessionMap) false false false
       (some { message := some "ok",
               plan := some [{ type := some "create", className := some "TextBox",
                               name := some "B",
                               parentPath := some "game.Workspace" }] })).1.planOf
      = some [{ type := some "create", className := some "TextBox", name := some "B",
                parentPath := some "game.Workspace" }] ∧
    claimNoDisallowedUI
      [{ type := some "create", className := some "TextBox", name := some "B",
         parentPath := some "game.Workspace" }] = false ∧
    claimUIConstrained
      [{ type := some "create", className := some "TextBox", name := some "B",
         parentPath := some "game.Workspace" }] = false := by
  refine ⟨by decide, by decide, by decide⟩

/-- C4 (amended): in the v14 variant the enforced plan contains zero
steps whose className is in the nine-class disallowed standalone-UI set
(the first disjunct of the claim always holds); the v17.1 filter omits
TextBox, ImageButton and ViewportFrame, which can therefore survive with
an unconstrained parentPath. -/
theorem c4_amended (prompt : Option String) (apiThrow crash : Bool)
    (parsed : Option AiData) (thinkingX : Option String) (ks : List Step)
    (h : (postAi_v14 prompt apiThrow crash parsed thinkingX).1.planOf = some ks) :
    claimNoDisallowedUI ks = true := by
  unfold postAi_v14 at h
  split at h
  · simp [HttpResp.planOf] at h
    subst h
    decide
  · split at h
    · simp [HttpResp.planOf] at h
      subst h
      decide
    · split at h
      · simp [HttpResp.planOf] at h
        subst h
        decide
      · exact mainResp_v14_noUI _ ks h

/-- C4 witness: a plan containing a Frame step and a Script step leaves
only the Script step, which is outside the disallowed set. -/
theorem c4_witness :
    claimNoDisallowedUI
      [{ type := some "create", className := some "Script", name := some "S" }] = true :=
  c4_amended (some "make things") false false
    (some { message := some "ok",
            plan := some [{ type := some "create", className := some "Frame",
                            name := some "F" },
                          { type := some "create", className := some "Script",
                            name := some "S" }] })
    none
    [{ type := some "create", className := some "Script", name := some "S" }]
    (by decide)

/-! ### Claim C8 -/

/-- C8 counterexample: the v17.1 filter removes a Frame step but performs
no override — the message stays "hi", `needsApproval` stays unset and
`autoExecute` keeps its default `true`, while the claim requires the
UI-violation message with `needsApproval = true` and
`autoExecute = false` in every variant that filters UI steps. -/
theorem c8_counterexample :
    (postAi_v171 0 (some "make a menu") (some "s") ([] : SessionMap) false false false
       (some { message := some "hi",
               plan := some [{ type := some "create", className := some "Frame",
                               name := some "F" }] })).1.planOf = some [] ∧
    (postAi_v171 0 (some "make a menu") (some "s") ([] : SessionMap) false false false
       (some { message := some "hi",
               plan := some [{ type := some "create", className := some "Frame",
                               name := some "F" }] })).1.messageOf = some "hi" ∧
    (postAi_v171 0 (some "make a menu") (some "s") ([] : SessionMap) false false false
       (some { message := some "hi",
               plan := some [{ type := some "create", className := some "Frame",
                               name := some "F" }] })).1.approvalOf = none ∧
    (postAi_v171 0 (some "make a menu") (some "s") ([] : SessionMap) false false false
       (some { message := some "hi",
               plan := some [{ type := some "create", className := some "Frame",
                               name := some "F" }] })).1.autoExecOf = some true := by
  refine ⟨by decide, by decide, by decide, by decide⟩

/-- C8 (amended): in the v14 and v15 variants, whenever at least one plan
step has a className in the disallowed UI set (and is therefore removed
by the filter), the final response carries the variant's UI-violation
message with `needsApproval = true` and `autoExecute = false`, overriding
whatever the deletion gate set before; the v17.1 filter removes such
steps without any override. -/
theorem c8_amended :
    (∀ (prompt : Option String) (parsed : Option AiData) (thinkingX : Option String)
       (d : AiData) (steps : List Step),
       promptEmpty prompt = false → parsed = some d → d.plan = some steps →
       steps.any (fun st => classIn uiInstanceClasses9 st.className) = true →
       (postAi_v14 prompt false false parsed thinkingX).1.messageOf
         = some uiViolationMsg_v14 ∧
       (postAi_v14 prompt false false parsed thinkingX).1.approvalOf = some true ∧
       (postAi_v14 prompt false false parsed thinkingX).1.autoExecOf = some false) ∧
    (∀ (prompt : Option String) (raw : String) (parsed : Option AiData)
       (thinkingX : Option String) (d : AiData) (steps : List Step),
       promptEmpty prompt = false → parsed = some d → d.plan = some steps →
       steps.any (fun st => classIn uiInstanceClasses9 st.className) = true →
       (postAi_v15 prompt false false false raw parsed thinkingX).messageOf
         = some uiViolationMsg_v15 ∧
       (postAi_v15 prompt false false false raw parsed thinkingX).approvalOf = some true ∧
       (postAi_v15 prompt false false false raw parsed thinkingX).autoExecOf
         = some false) := by
  constructor
  · intro prompt parsed thinkingX d steps hp hd hplan hui
    have hpath := postAi_v14_plan_path prompt parsed thinkingX d steps hp hd hplan
    have hov := processPlan_v14_override (ensureMsg_v14 d) steps hui
    rw [hpath]
    exact ⟨hov.1, hov.2.1, hov.2.2⟩
  · intro prompt raw parsed thinkingX d steps hp hd hplan hui
    have hpath := postAi_v15_plan_path prompt raw parsed thinkingX d steps hp hd hplan
    have hov := processPlan_v15_override
      (ensureMsg_v15 (ideasGate_v15 (trimS (prompt.getD "")) d)) steps hui
    rw [hpath]
    exact ⟨hov.1, hov.2.1, hov.2.2⟩

/-- C8 witness: a plan with five delete steps and one Frame step — the
deletion gate fires first (its warning naming 5), then the UI filter
overrides message and flags. -/
theorem c8_witness :
    (postAi_v14 (some "redo the ui") false false
       (some { message := some "ok",
               plan := some
                 [{ type := some "create", className := some "Frame", name := some "F" },
                  { type := some "delete", className := some "Script", name := some "A" },
                  { type := some "delete", className := some "Script", name := some "B" },
                  { type := some "delete", className := some "Script", name := some "C" },
                  { type := some "delete", className := some "Script", name := some "D" },
                  { type := some "delete", className := some "Script", name := some "E" }] })
       none).1.messageOf = some uiViolationMsg_v14 ∧
    (postAi_v14 (some "redo the ui") false false
       (some { message := some "ok",
               plan := some
                 [{ type := some "create", className := some "Frame", name := some "F" },
                  { type := some "delete", className := some "Script", name := some "A" },
                  { type := some "delete", className := some "Script", name := some "B" },
                  { type := some "delete", className := some "Script", name := some "C" },
                  { type := some "delete", className := some "Script", name := some "D" },
                  { type := some "delete", className := some "Script", name := some "E" }] })
       none).1.approvalOf = some true :=
  ⟨(c8_amended.1 (some "redo the ui")
      (some { message := some "ok",
              plan := some
                [{ type := some "create", className := some "Frame", name := some "F" },
                 { type := some "delete", className := some "Script", name := some "A" },
                 { type := some "delete", className := some "Script", name := some "B" },
                 { type := some "delete", className := some "Script", name := some "C" },
                 { type := some "delete", className := some "Script", name := some "D" },
                 { type := some "delete", className := some "Script", name := some "E" }] })
      none
      { message := some "ok",
        plan := some
          [{ type := some "create", className := some "Frame", name := some "F" },
           { type := some "delete", className := some "Script", name := some "A" },
           { type := some "delete", className := some "Script", name := some "B" },
           { type := some "delete", className := some "Script", name := some "C" },
           { type := some "delete", className := some "Script", name := some "D" },
           { type := some "delete", className := some "Script", name := some "E" }] }
      [{ type := some "create", className := some "Frame", name := some "F" },
       { type := some "delete", className := some "Script", name := some "A" },
       { type := some "delete", className := some "Script", name := some "B" },
       { type := some "delete", className := some "Script", name := some "C" },
       { type := some "delete", className := some "Script", name := some "D" },
       { type := some "delete", className := some "Script", name := some "E" }]
      (by decide) rfl rfl (by decide)).1,
   (c8_amended.1 (some "redo the ui")
      (some { message := some "ok",
              plan := some
                [{ type := some "create", className := some "Frame", name := some "F" },
                 { type := some "delete", className := some "Script", name := some "A" },
                 { type := some "delete", className := some "Script", name := some "B" },
                 { type := some "delete", className := some "Script", name := some "C" },
                 { type := some "delete", className := some "Script", name := some "D" },
                 { type := some "delete", className := some "Script", name := some "E" }] })
      none
      { message := some "ok",
        plan := some
          [{ type := some "create", className := some "Frame", name := some "F" },
           { type := some "delete", className := some "Script", name := some "A" },
           { type := some "delete", className := some "Script", name := some "B" },
           { type := some "delete", className := some "Script", name := some "C" },
           { type := some "delete", className := some "Script", name := some "D" },
           { type := some "delete", className := some "Script", name := some "E" }] }
      [{ type := some "create", className := some "Frame", name := some "F" },
       { type := some "delete", className := some "Script", name := some "A" },
       { type := some "delete", className := some "Script", name := some "B" },
       { type := some "delete", className := some "Script", name := some "C" },
       { type := some "delete", className := some "Script", name := some "D" },
       { type := some "delete", className := some "Script", name := some "E" }]
      (by decide) rfl rfl (by decide)).2.1⟩

end Acid
